import Mathlib

/-!
Verification of the CMS protocol client (`app/services/cms.py`) of the
`noc_api` repository against its natural-language specification.

The embedding models the xmltodict/pydash data layer, the `CmsClient`
session operations, the alarm-pagination recursion, and the record-model
field extraction, each translated from the Python source.
-/

namespace NocApi

/-- A parsed XML response tree as produced by `xmltodict.parse` and walked by
`pydash.objects.get`: nested string-keyed mappings whose leaves are strings or
null (empty elements), with repeated sibling elements collected into lists. -/
inductive JVal where
  | null : JVal
  | s : String → JVal
  | arr : List JVal → JVal
  | obj : List (String × JVal) → JVal

/-- First-match association-list lookup (Python dict key access; xmltodict
never produces duplicate keys). -/
def jlook : List (String × JVal) → String → Option JVal
  | [], _ => none
  | (k, v) :: rest, key => if k = key then some v else jlook rest key

/-- One step of `pydash.objects.get`: key access into a mapping; any
non-mapping node (including a list or a null) yields nothing. -/
def jget1 : JVal → String → Option JVal
  | JVal.obj kvs, k => jlook kvs k
  | _, _ => none

/-- `pydash.objects.get(tree, "a.b.c")`: walk the dotted path, `none` if any
intermediate node is missing or not a mapping. -/
def jget : JVal → List String → Option JVal
  | v, [] => some v
  | v, k :: ks =>
    match jget1 v k with
    | some w => jget w ks
    | none => none

/-- `pydash.objects.get(tree, path, default=d)`: the default replaces only a
missing path, not a present null value. -/
def jgetD (v : JVal) (p : List String) (d : JVal) : JVal :=
  (jget v p).getD d

/-- Truth value of the Python comparison `value == "lit"` where `value` is the
result of a `pydash` lookup: true exactly when the lookup produced the string
literal `lit` (a missing value, a null, a mapping or a list are all unequal to
a string in Python). -/
def isLitStr (v : Option JVal) (lit : String) : Bool :=
  match v with
  | some (JVal.s u) => u == lit
  | _ => false

/-- Truth value of the Python comparison `resp == {}` performed by `login` and
`logout` on the parse result. -/
def isEmptyDict : JVal → Bool
  | JVal.obj [] => true
  | _ => false

/- ## Transport (`CmsClient.__post`) -/

/-- The distinct raw failures that can occur inside `__post`:
`requests.exceptions.MissingSchema` (malformed URL),
`requests.exceptions.ConnectionError` (connection refused) and
`xmltodict.ParsingInterrupted` are caught by its `except` clauses; a read
timeout (`requests.exceptions.Timeout`) and an unparsable body
(`xml.parsers.expat.ExpatError`) are not caught and propagate raw. -/
inductive TransportFailure where
  | missingSchema
  | connectionError
  | parsingInterrupted
  | readTimeout
  | unparsableBody
deriving DecidableEq, Repr

/-- Whether `__post`'s `except` clauses catch the given raw failure. -/
def caughtByPost : TransportFailure → Bool
  | TransportFailure.missingSchema => true
  | TransportFailure.connectionError => true
  | TransportFailure.parsingInterrupted => true
  | _ => false

/-- `CmsClient.__post`: on success returns the parsed tree together with the
`"<more/>" in str(resp.content)` flag; on a caught failure it swallows the
exception and returns `[{}, False]`; an uncaught failure propagates. The
transport outcome (the HTTP exchange and parse) is the argument. -/
def post (tr : Except TransportFailure (JVal × Bool)) :
    Except TransportFailure (JVal × Bool) :=
  match tr with
  | Except.ok r => Except.ok r
  | Except.error e =>
    if caughtByPost e then Except.ok (JVal.obj [], false) else Except.error e

/- ## Session manager (`CmsClient.login` / `CmsClient.logout`) -/

/-- The CMS-level exceptions raised by the client
(`app/services/exceptions`). -/
inductive CmsError where
  | authenticationFailure
  | deauthenticationFailure
  | communicationFailure
deriving DecidableEq, Repr

/-- The mutable client state: `self.session_id`, `None` before a successful
login. -/
structure ClientState where
  sessionId : Option JVal

/-- Path of `get(resp, "Envelope.Body.auth-reply.ResultCode")`. -/
def authReplyCode : List String := ["Envelope", "Body", "auth-reply", "ResultCode"]

/-- Path of `get(resp, "Envelope.Body.auth-reply.SessionId")`. -/
def authReplySid : List String := ["Envelope", "Body", "auth-reply", "SessionId"]

/-- `CmsClient.login` applied to an already-posted parse result: raises
`CmsCommunicationFailure` on the empty parse result, raises
`CmsAuthenticationFailure` when no session id is present or the result code is
not the string `"0"`, and otherwise stores and returns the session id. The
returned state is the state of `self` after the call (unchanged on every
raising path, since the assignment `self.session_id = session_id` follows the
checks). -/
def loginCore (st : ClientState) (resp : JVal) : ClientState × Except CmsError JVal :=
  if isEmptyDict resp then (st, Except.error CmsError.communicationFailure)
  else
    match jget resp authReplySid with
    | none => (st, Except.error CmsError.authenticationFailure)
    | some sid =>
      if isLitStr (jget resp authReplyCode) "0" then
        ({ sessionId := some sid }, Except.ok sid)
      else (st, Except.error CmsError.authenticationFailure)

/-- `CmsClient.logout` applied to an already-posted parse result: raises
`CmsCommunicationFailure` on the empty parse result, raises
`CmsDeauthenticationFailure` unless the result code is the string `"0"`, and
otherwise returns `None`. The method body never assigns `self.session_id`, so
the state is returned unchanged on every path. -/
def logoutCore (st : ClientState) (resp : JVal) : ClientState × Except CmsError Unit :=
  if isEmptyDict resp then (st, Except.error CmsError.communicationFailure)
  else if isLitStr (jget resp authReplyCode) "0" then (st, Except.ok ())
  else (st, Except.error CmsError.deauthenticationFailure)

/-- `login` as seen from the transport: `resp, _ = self.__post(payload)`
followed by `loginCore`. -/
def loginStep (st : ClientState) (tr : Except TransportFailure (JVal × Bool)) :
    Except TransportFailure (ClientState × Except CmsError JVal) :=
  (post tr).map (fun r => loginCore st r.fst)

/-- `logout` as seen from the transport. -/
def logoutStep (st : ClientState) (tr : Except TransportFailure (JVal × Bool)) :
    Except TransportFailure (ClientState × Except CmsError Unit) :=
  (post tr).map (fun r => logoutCore st r.fst)

/- ## Alarm pagination (`CmsClient.get_node_alarms`) -/

/-- Python runtime errors that the alarm recursion can raise (the source has
no handler for any of them); `stubExhausted` marks a run that needs more
responses than the finite stub script provides. -/
inductive PyErr where
  | indexError
  | keyError
  | typeError
  | stubExhausted
deriving DecidableEq, Repr

/-- Path of
`get(resp, "soapenv:Envelope.soapenv:Body.rpc-reply.action-reply.alarm", default=[])`. -/
def alarmPath : List String :=
  ["soapenv:Envelope", "soapenv:Body", "rpc-reply", "action-reply", "alarm"]

/-- Rendering of a parse-tree value inside an f-string. Only string leaves
occur in the alarm cursor positions; for other nodes Python would interpolate
a `repr`, which no claim exercises. -/
def fstr : JVal → String
  | JVal.s u => u
  | _ => ""

/-- The list `alarms` after `if isinstance(alarms, dict): alarms = [alarms]`:
a list stays itself, a single mapping is wrapped into a singleton; any other
value (a bare string or null at the alarm path) makes the remaining Python
code misbehave and is modelled as `none`. -/
def asAlarmList : JVal → Option (List JVal)
  | JVal.arr xs => some xs
  | JVal.obj kvs => some [JVal.obj kvs]
  | _ => none

/-- The `payload_insertion` string built from the last alarm of a page:
`<action-args><start-instance><type>…</type><id>…</id></start-instance><after-alarm>…</after-alarm></action-args>`,
with the id keys rendered in insertion order. `none` when
`alarms[-1]["object"]`, its `"type"`/`"id"` entries or `alarms[-1]["alarm-type"]`
are missing or the id is not a mapping (Python raises a
`KeyError`/`TypeError` there). -/
def buildCursor (last : JVal) : Option String :=
  match jget last ["object", "type"], jget last ["object", "id"],
      jget last ["alarm-type"] with
  | some ty, some (JVal.obj idkvs), some alarmTy =>
    let objectId := String.join (idkvs.map
      (fun kv => "<" ++ kv.fst ++ ">" ++ fstr kv.snd ++ "</" ++ kv.fst ++ ">"))
    some ("<action-args><start-instance><type>" ++ fstr ty ++ "</type><id>"
      ++ objectId ++ "</id></start-instance><after-alarm>" ++ fstr alarmTy
      ++ "</after-alarm></action-args>")
  | _, _, _ => none

/-- The initial `_payload_after` argument of `get_node_alarms` (the
`<action-args/>` element of the template payload, left in place by the
identity `replace`). -/
def initialActionArgs : String := "<action-args/>"

/-- The recursion of `get_node_alarms`, driven by a stub transport script: the
head of `script` is the `(parsed, hasMore)` pair the next `__post` returns.
Returns the accumulated alarm list together with the `_payload_after` string
of every request issued, in order, or the Python error the source would raise.
Mirrors the source line by line: extract the page at `alarmPath` (default
`[]`), singleton-wrap a mapping, and if `more` build the continuation from the
page's last alarm (`alarms[-1]` — an empty page raises `IndexError`) and
recurse, prepending this page's alarms to the recursive result. -/
def getNodeAlarmsAux : List (JVal × Bool) → String → Except PyErr (List JVal × List String)
  | [], _ => Except.error PyErr.stubExhausted
  | (resp, more) :: rest, after =>
    match asAlarmList (jgetD resp alarmPath (JVal.arr [])) with
    | none => Except.error PyErr.typeError
    | some alarms =>
      if more then
        match alarms.getLast? with
        | none => Except.error PyErr.indexError
        | some last =>
          match buildCursor last with
          | none => Except.error PyErr.keyError
          | some ins =>
            match getNodeAlarmsAux rest ins with
            | Except.ok (tl, sents) => Except.ok (alarms ++ tl, after :: sents)
            | Except.error e => Except.error e
      else Except.ok (alarms, [after])

/-- `CmsClient.get_node_alarms` run against a stub transport script. -/
def getNodeAlarms (script : List (JVal × Bool)) : Except PyErr (List JVal × List String) :=
  getNodeAlarmsAux script initialActionArgs

/-- A stub response whose alarm path holds exactly the given page of alarms
(the nesting `soapenv:Envelope → soapenv:Body → rpc-reply → action-reply →
alarm` of the real reply). -/
def alarmResp (page : List JVal) : JVal :=
  JVal.obj [("soapenv:Envelope", JVal.obj [("soapenv:Body", JVal.obj
    [("rpc-reply", JVal.obj [("action-reply", JVal.obj
      [("alarm", JVal.arr page)])])])])]

/-- A transport script delivering the given pages, asserting `hasMore` on
every page except the last. -/
def mkScript : List (List JVal) → List (JVal × Bool)
  | [] => []
  | [p] => [(alarmResp p, false)]
  | p :: rest => (alarmResp p, true) :: mkScript rest

/-- A page can seed a continuation request: it is non-empty and its last alarm
carries the `object.type`, `object.id` mapping and `alarm-type` entries the
cursor is built from. -/
def cursorReady (page : List JVal) : Bool :=
  (page.getLast?.bind buildCursor).isSome

/-- The expected `_payload_after` of each request when the pages arrive in
order starting from the given first insertion: each later request carries the
cursor built from the last alarm of the page before it. -/
def afterTrace (a : String) : List (List JVal) → List String
  | [] => []
  | [_] => [a]
  | p :: rest => a :: afterTrace ((p.getLast?.bind buildCursor).getD "") rest

/- ## ONT listing (`CmsClient.list_onts_on_gpon`) -/

/-- The `OntList` record as constructed by `list_onts_on_gpon`
(`OntList(onts=ont_ids, count=len(ont_ids))`, or `count=-1` when the response
has no `children` node). -/
structure OntList where
  onts : List JVal
  count : Int

/-- Path of the `…rpc-reply.data.top.object.children` lookup. -/
def childrenPath : List String :=
  ["soapenv:Envelope", "soapenv:Body", "rpc-reply", "data", "top", "object", "children"]

/-- Path of the `…rpc-reply.data.top.object.children.child` lookup. -/
def childPath : List String := childrenPath ++ ["child"]

/-- The body of `list_onts_on_gpon` applied to one parsed response: return
`OntList(onts=[], count=-1)` when the `children` node is missing; otherwise
take the `child` value, wrap it into a singleton list unless it already is a
list (a missing `child` gives the Python list `[None]`), and keep each child's
`id.ont` value when present. -/
def listOntsCore (resp : JVal) : OntList :=
  if (jget resp childrenPath).isNone then OntList.mk [] (-1)
  else
    let children :=
      match jgetD resp childPath JVal.null with
      | JVal.arr xs => xs
      | v => [v]
    let ontIds := children.filterMap (fun child => jget child ["id", "ont"])
    OntList.mk ontIds (Int.ofNat ontIds.length)

/-- `CmsClient.list_onts_on_gpon` run against a stub transport script: the
method issues a single `__post` — consuming exactly one scripted response and
discarding the `hasMore` flag (`resp, _ = self.__post(payload)`) — and returns
the extracted list together with the number of requests issued. -/
def listOntsOnGpon (script : List (JVal × Bool)) : Except PyErr (OntList × Nat) :=
  match script with
  | [] => Except.error PyErr.stubExhausted
  | (resp, _) :: _ => Except.ok (listOntsCore resp, 1)

/- ## Action / edit-config result extraction -/

/-- Path of the `…soapenv:Body.rpc-reply` lookup shared by every action and
edit-config operation. -/
def rpcReplyPath : List String := ["soapenv:Envelope", "soapenv:Body", "rpc-reply"]

/-- The shared tail of every action/edit-config method:
`if isinstance(get(resp, "…rpc-reply"), dict): return "ok" in get(resp, "…rpc-reply")`
`return False` — true exactly when the reply node is a mapping containing the
key `"ok"`. -/
def editResult (resp : JVal) : Bool :=
  match jget resp rpcReplyPath with
  | some (JVal.obj kvs) => (jlook kvs "ok").isSome
  | _ => false

/-- `CmsClient.reset_ont`: post, then the shared success extraction. -/
def resetOnt (tr : Except TransportFailure (JVal × Bool)) : Except TransportFailure Bool :=
  (post tr).map (fun r => editResult r.fst)

/-- `CmsClient.reset_ont_performance`. -/
def resetOntPerformance (tr : Except TransportFailure (JVal × Bool)) :
    Except TransportFailure Bool :=
  (post tr).map (fun r => editResult r.fst)

/-- `CmsClient.quarantine_ont`. -/
def quarantineOnt (tr : Except TransportFailure (JVal × Bool)) : Except TransportFailure Bool :=
  (post tr).map (fun r => editResult r.fst)

/-- `CmsClient.release_ont`. -/
def releaseOnt (tr : Except TransportFailure (JVal × Bool)) : Except TransportFailure Bool :=
  (post tr).map (fun r => editResult r.fst)

/-- `CmsClient.enable_ont`. -/
def enableOnt (tr : Except TransportFailure (JVal × Bool)) : Except TransportFailure Bool :=
  (post tr).map (fun r => editResult r.fst)

/-- `CmsClient.disable_ont`. -/
def disableOnt (tr : Except TransportFailure (JVal × Bool)) : Except TransportFailure Bool :=
  (post tr).map (fun r => editResult r.fst)

/-- `CmsClient.enable_ont_port`. -/
def enableOntPort (tr : Except TransportFailure (JVal × Bool)) : Except TransportFailure Bool :=
  (post tr).map (fun r => editResult r.fst)

/-- `CmsClient.disable_ont_port`. -/
def disableOntPort (tr : Except TransportFailure (JVal × Bool)) : Except TransportFailure Bool :=
  (post tr).map (fun r => editResult r.fst)

/-- `CmsClient.enable_xdsl_port`. -/
def enableXdslPort (tr : Except TransportFailure (JVal × Bool)) : Except TransportFailure Bool :=
  (post tr).map (fun r => editResult r.fst)

/-- `CmsClient.disable_xdsl_port`. -/
def disableXdslPort (tr : Except TransportFailure (JVal × Bool)) : Except TransportFailure Bool :=
  (post tr).map (fun r => editResult r.fst)

/-- `CmsClient.enable_xdsl_bonding_group`. -/
def enableXdslBondingGroup (tr : Except TransportFailure (JVal × Bool)) :
    Except TransportFailure Bool :=
  (post tr).map (fun r => editResult r.fst)

/-- `CmsClient.disable_xdsl_bonding_group`. -/
def disableXdslBondingGroup (tr : Except TransportFailure (JVal × Bool)) :
    Except TransportFailure Bool :=
  (post tr).map (fun r => editResult r.fst)

/-- The parsed reply holds an `rpc-reply` mapping containing the key `"ok"`
(the success condition of the claim, stated structurally). -/
def okReply (resp : JVal) : Prop :=
  ∃ kvs, jget resp rpcReplyPath = some (JVal.obj kvs) ∧ (jlook kvs "ok").isSome = true

/- ## SOAP envelope namespace URIs -/

/-- `xmlns:soapenv` of the `login` payload (line 53). -/
def loginEnvelopeNs : String := "http://schemas.xmlsoap.org/soap/envelope/"

/-- `xmlns:soapenv` of the `logout` payload (line 89). -/
def logoutEnvelopeNs : String := "http://schemas.xmlsoap.org/soap/envelope/"

/-- `xmlns:soapenv` of the `get_ont` payload (line 120). -/
def getOntEnvelopeNs : String := "www.w3.org/2003/05/soap-envelope"

/-- `xmlns:soapenv` of the `get_ont_status` payload (line 261). -/
def getOntStatusEnvelopeNs : String := "http://schemas.xmlsoap.org/soap/envelope/"

/-- `xmlns:soapenv` of the `get_ont_performance` payload (line 521). -/
def getOntPerformanceEnvelopeNs : String := "http://schemas.xmlsoap.org/soap/envelope/"

/-- `xmlns:soapenv` of the `get_ont_port` payload (line 574). -/
def getOntPortEnvelopeNs : String := "www.w3.org/2003/05/soap-envelope"

/-- `xmlns:soapenv` of the `get_ont_port_data_service` payload (line 691). -/
def getOntPortDataServiceEnvelopeNs : String := "www.w3.org/2003/05/soap-envelope"

/-- `xmlns:soapenv` of the `get_ont_voice_service` payload (line 798). -/
def getOntVoiceServiceEnvelopeNs : String := "www.w3.org/2003/05/soap-envelope"

/-- `xmlns:soapenv` of the `list_onts_on_gpon` payload (line 877). -/
def listOntsOnGponEnvelopeNs : String := "http://schemas.xmlsoap.org/soap/envelope/"

/-- `xmlns:soapenv` of the `reset_ont_performance` payload (line 938). -/
def resetOntPerformanceEnvelopeNs : String := "http://schemas.xmlsoap.org/soap/envelope/"

/-- `xmlns:soapenv` of the `reset_ont` payload (line 970). -/
def resetOntEnvelopeNs : String := "http://schemas.xmlsoap.org/soap/envelope/"

/-- `xmlns:soapenv` of the `quarantine_ont` payload (line 1002). -/
def quarantineOntEnvelopeNs : String := "http://schemas.xmlsoap.org/soap/envelope/"

/-- `xmlns:soapenv` of the `release_ont` payload (line 1035). -/
def releaseOntEnvelopeNs : String := "http://schemas.xmlsoap.org/soap/envelope/"

/-- `xmlns:soapenv` of the `disable_ont` payload (line 1068). -/
def disableOntEnvelopeNs : String := "www.w3.org/2003/05/soap-envelope"

/-- `xmlns:soapenv` of the `disable_ont_port` payload (line 1101). -/
def disableOntPortEnvelopeNs : String := "www.w3.org/2003/05/soap-envelope"

/-- `xmlns:soapenv` of the `enable_ont` payload (line 1137). -/
def enableOntEnvelopeNs : String := "www.w3.org/2003/05/soap-envelope"

/-- `xmlns:soapenv` of the `enable_ont_port` payload (line 1171). -/
def enableOntPortEnvelopeNs : String := "www.w3.org/2003/05/soap-envelope"

/-- `xmlns:soapenv` of the `get_xdsl_interface` payload (line 1210). -/
def getXdslInterfaceEnvelopeNs : String := "http://schemas.xmlsoap.org/soap/envelope/"

/-- `xmlns:soapenv` of the `get_xdsl_port` payload (line 1367). -/
def getXdslPortEnvelopeNs : String := "http://schemas.xmlsoap.org/soap/envelope/"

/-- `xmlns:soapenv` of the `get_xdsl_status` payload (line 1854). -/
def getXdslStatusEnvelopeNs : String := "http://schemas.xmlsoap.org/soap/envelope/"

/-- `xmlns:soapenv` of the `get_xdsl_performance` payload (line 2034). -/
def getXdslPerformanceEnvelopeNs : String := "http://schemas.xmlsoap.org/soap/envelope/"

/-- `xmlns:soapenv` of the `run_xdsl_line_test` payload (line 2098). -/
def runXdslLineTestEnvelopeNs : String := "http://schemas.xmlsoap.org/soap/envelope/"

/-- `xmlns:soapenv` of the `disable_xdsl_port` payload (line 2199). -/
def disableXdslPortEnvelopeNs : String := "www.w3.org/2003/05/soap-envelope"

/-- `xmlns:soapenv` of the `enable_xdsl_port` payload (line 2237). -/
def enableXdslPortEnvelopeNs : String := "www.w3.org/2003/05/soap-envelope"

/-- `xmlns:soapenv` of the `enable_xdsl_bonding_group` payload (line 2275). -/
def enableXdslBondingGroupEnvelopeNs : String := "http://schemas.xmlsoap.org/soap/envelope/"

/-- `xmlns:soapenv` of the `disable_xdsl_bonding_group` payload (line 2313). -/
def disableXdslBondingGroupEnvelopeNs : String := "http://schemas.xmlsoap.org/soap/envelope/"

/-- `xmlns:soapenv` of the `get_node_alarms` payload (line 2349). -/
def getNodeAlarmsEnvelopeNs : String := "www.w3.org/2003/05/soap-envelope"

/-- The namespace URIs of every non-auth envelope the client builds, in source
order (every `rpc` payload; the two `auth` payloads of `login` and `logout`
are excluded). -/
def nonAuthEnvelopeNsList : List String :=
  [getOntEnvelopeNs, getOntStatusEnvelopeNs, getOntPerformanceEnvelopeNs,
   getOntPortEnvelopeNs, getOntPortDataServiceEnvelopeNs,
   getOntVoiceServiceEnvelopeNs, listOntsOnGponEnvelopeNs,
   resetOntPerformanceEnvelopeNs, resetOntEnvelopeNs, quarantineOntEnvelopeNs,
   releaseOntEnvelopeNs, disableOntEnvelopeNs, disableOntPortEnvelopeNs,
   enableOntEnvelopeNs, enableOntPortEnvelopeNs, getXdslInterfaceEnvelopeNs,
   getXdslPortEnvelopeNs, getXdslStatusEnvelopeNs,
   getXdslPerformanceEnvelopeNs, runXdslLineTestEnvelopeNs,
   disableXdslPortEnvelopeNs, enableXdslPortEnvelopeNs,
   enableXdslBondingGroupEnvelopeNs, disableXdslBondingGroupEnvelopeNs,
   getNodeAlarmsEnvelopeNs]

/- ## Record models and field extraction -/

/-- Path prefix `soapenv:Envelope.soapenv:Body.rpc-reply.data.top.object` of
every get-config field extraction. -/
def rpcObjPath : List String :=
  ["soapenv:Envelope", "soapenv:Body", "rpc-reply", "data", "top", "object"]

/-- The `OntGeneral` record as constructed by `get_ont`: one `pydash` lookup
per field (absent leaves give `none`), except `battery_present`, which the
source coerces with `== "true"` (reading the `serno` leaf). -/
structure OntGeneral where
  parent_node : String
  id : String
  admin_state : Option JVal
  model_nr : Option JVal
  serial_nr : Option JVal
  registration_id : Option JVal
  subscriber_id : Option JVal
  description : Option JVal
  vendor : Option JVal
  shelf : Option JVal
  card : Option JVal
  port : Option JVal
  pwe3prof : Option JVal
  low_rx_opt_pwr_ne_thresh : Option JVal
  high_rx_opt_pwr_ne_thresh : Option JVal
  us_sdber_rate : Option JVal
  low_rx_opt_pwr_fe_thresh : Option JVal
  high_rx_opt_pwr_fe_thresh : Option JVal
  low_tx_opt_pwr_thresh : Option JVal
  high_tx_opt_pwr_thresh : Option JVal
  low_laser_bias_thresh : Option JVal
  high_laser_bias_thresh : Option JVal
  low_line_pwr_feed_thresh : Option JVal
  high_line_pwr_feed_thresh : Option JVal
  low_ont_temp_thresh : Option JVal
  high_ont_temp_thresh : Option JVal
  battery_present : Bool
  pse_max_power_budget : Option JVal
  poe_class_control : Option JVal
  ont_port_color : Option JVal

/-- The field extraction of `get_ont` (lines 145-254). -/
def mkOntGeneral (nodeId ontId : String) (resp : JVal) : OntGeneral :=
  { parent_node := nodeId
    id := ontId
    admin_state := jget resp (rpcObjPath ++ ["admin"])
    model_nr := jget resp (rpcObjPath ++ ["ontprof", "id", "ontprof", "@name"])
    serial_nr := jget resp (rpcObjPath ++ ["serno"])
    registration_id := jget resp (rpcObjPath ++ ["reg-id"])
    subscriber_id := jget resp (rpcObjPath ++ ["subscr-id"])
    description := jget resp (rpcObjPath ++ ["descr"])
    vendor := jget resp (rpcObjPath ++ ["vendor"])
    shelf := jget resp (rpcObjPath ++ ["linked-pon", "id", "shelf"])
    card := jget resp (rpcObjPath ++ ["linked-pon", "id", "card"])
    port := jget resp (rpcObjPath ++ ["linked-pon", "id", "gponport"])
    pwe3prof := jget resp (rpcObjPath ++ ["pwe3prof"])
    low_rx_opt_pwr_ne_thresh := jget resp (rpcObjPath ++ ["low-rx-opt-pwr-ne-thresh"])
    high_rx_opt_pwr_ne_thresh := jget resp (rpcObjPath ++ ["high-rx-opt-pwr-ne-thresh"])
    us_sdber_rate := jget resp (rpcObjPath ++ ["us-sdber-rate"])
    low_rx_opt_pwr_fe_thresh := jget resp (rpcObjPath ++ ["low-rx-opt-pwr-fe-thresh"])
    high_rx_opt_pwr_fe_thresh := jget resp (rpcObjPath ++ ["high-rx-opt-pwr-fe-thresh"])
    low_tx_opt_pwr_thresh := jget resp (rpcObjPath ++ ["low-tx-opt-pwr-thresh"])
    high_tx_opt_pwr_thresh := jget resp (rpcObjPath ++ ["high-tx-opt-pwr-thresh"])
    low_laser_bias_thresh := jget resp (rpcObjPath ++ ["low-laser-bias-thresh"])
    high_laser_bias_thresh := jget resp (rpcObjPath ++ ["high-laser-bias-thresh"])
    low_line_pwr_feed_thresh := jget resp (rpcObjPath ++ ["low-line-pwr-feed-thresh"])
    high_line_pwr_feed_thresh := jget resp (rpcObjPath ++ ["high-line-pwr-feed-thresh"])
    low_ont_temp_thresh := jget resp (rpcObjPath ++ ["low-ont-temp-thresh"])
    high_ont_temp_thresh := jget resp (rpcObjPath ++ ["high-ont-temp-thresh"])
    battery_present := isLitStr (jget resp (rpcObjPath ++ ["serno"])) "true"
    pse_max_power_budget := jget resp (rpcObjPath ++ ["pse-max-power-budget"])
    poe_class_control := jget resp (rpcObjPath ++ ["poe-class-control"])
    ont_port_color := jget resp (rpcObjPath ++ ["ont-port-color"]) }

/-- `CmsClient.get_ont`: post, then field extraction. The body contains no
check of the parse result and no raise, so the CMS-error layer is always
`Except.ok`. -/
def getOnt (nodeId ontId : String) (tr : Except TransportFailure (JVal × Bool)) :
    Except TransportFailure (Except CmsError OntGeneral) :=
  (post tr).map (fun r => Except.ok (mkOntGeneral nodeId ontId r.fst))

/-- The `OntPort` record as constructed by `get_ont_port`: one lookup per
field; four fields are coerced to booleans by literal string comparison —
three with `== "true"` and `ppte_power_control` with `== "false"`
(lines 675-679). -/
structure OntPort where
  parent_node : String
  id : String
  slot : Option JVal
  port_number : Option JVal
  admin : Option JVal
  subscriber_id : Option JVal
  description : Option JVal
  speed : Option JVal
  duplex : Option JVal
  disable_on_battery : Bool
  link_oam_events : Bool
  accept_link_oam_loopbacks : Bool
  intf : Option JVal
  dhcp_limit_override : Option JVal
  downstream_bandwidth_profile : Option JVal
  force_dot1x : Option JVal
  role : Option JVal
  policing : Option JVal
  poe_power_priority : Option JVal
  poe_class_control : Option JVal
  voice_policy_profile : Option JVal
  ppte_power_control : Bool
  ont_port_color : Option JVal

/-- The field extraction of `get_ont_port` (lines 600-684). -/
def mkOntPort (nodeId ontId : String) (resp : JVal) : OntPort :=
  { parent_node := nodeId
    id := ontId
    slot := jget resp (rpcObjPath ++ ["id", "ontslot"])
    port_number := jget resp (rpcObjPath ++ ["id", "ontethge"])
    admin := jget resp (rpcObjPath ++ ["admin"])
    subscriber_id := jget resp (rpcObjPath ++ ["subscr-id"])
    description := jget resp (rpcObjPath ++ ["descr"])
    speed := jget resp (rpcObjPath ++ ["speed"])
    duplex := jget resp (rpcObjPath ++ ["duplex"])
    disable_on_battery := isLitStr (jget resp (rpcObjPath ++ ["disable-on-batt"])) "true"
    link_oam_events := isLitStr (jget resp (rpcObjPath ++ ["link-oam-events"])) "true"
    accept_link_oam_loopbacks :=
      isLitStr (jget resp (rpcObjPath ++ ["accept-link-oam-loopbacks"])) "true"
    intf := jget resp (rpcObjPath ++ ["intf"])
    dhcp_limit_override := jget resp (rpcObjPath ++ ["dhcp-limit-override"])
    downstream_bandwidth_profile := jget resp (rpcObjPath ++ ["ds-bw-prof"])
    force_dot1x := jget resp (rpcObjPath ++ ["force-dot1x"])
    role := jget resp (rpcObjPath ++ ["role"])
    policing := jget resp (rpcObjPath ++ ["policing"])
    poe_power_priority := jget resp (rpcObjPath ++ ["poe-power-priority"])
    poe_class_control := jget resp (rpcObjPath ++ ["poe-class-control"])
    voice_policy_profile := jget resp (rpcObjPath ++ ["voice-policy-profile"])
    ppte_power_control := isLitStr (jget resp (rpcObjPath ++ ["ppte-power-control"])) "false"
    ont_port_color := jget resp (rpcObjPath ++ ["ont-port-color"]) }

/-- Every leaf path `get_ont_port` extracts a field from. -/
def ontPortLeafPaths : List (List String) :=
  [rpcObjPath ++ ["id", "ontslot"], rpcObjPath ++ ["id", "ontethge"],
   rpcObjPath ++ ["admin"], rpcObjPath ++ ["subscr-id"], rpcObjPath ++ ["descr"],
   rpcObjPath ++ ["speed"], rpcObjPath ++ ["duplex"],
   rpcObjPath ++ ["disable-on-batt"], rpcObjPath ++ ["link-oam-events"],
   rpcObjPath ++ ["accept-link-oam-loopbacks"], rpcObjPath ++ ["intf"],
   rpcObjPath ++ ["dhcp-limit-override"], rpcObjPath ++ ["ds-bw-prof"],
   rpcObjPath ++ ["force-dot1x"], rpcObjPath ++ ["role"],
   rpcObjPath ++ ["policing"], rpcObjPath ++ ["poe-power-priority"],
   rpcObjPath ++ ["poe-class-control"], rpcObjPath ++ ["voice-policy-profile"],
   rpcObjPath ++ ["ppte-power-control"], rpcObjPath ++ ["ont-port-color"]]

/- ## Stub fixtures -/

/-- A stub auth-reply parse result with the given result code and, optionally,
a session id. -/
def authReply (code : String) (sid : Option JVal) : JVal :=
  JVal.obj [("Envelope", JVal.obj [("Body", JVal.obj [("auth-reply",
    JVal.obj (("ResultCode", JVal.s code) ::
      (match sid with
       | some v => [("SessionId", v)]
       | none => [])))])])]

/-- A stub get-config response whose `…data.top.object` node holds exactly the
given attribute leaves. -/
def ontPortResp (kvs : List (String × JVal)) : JVal :=
  JVal.obj [("soapenv:Envelope", JVal.obj [("soapenv:Body", JVal.obj
    [("rpc-reply", JVal.obj [("data", JVal.obj [("top", JVal.obj
      [("object", JVal.obj kvs)])])])])])]

/-- A stub child object of a `System`-children listing with the given
`id.ont` value. -/
def ontChild (i : String) : JVal :=
  JVal.obj [("id", JVal.obj [("ont", JVal.s i)])]

/-- A stub listing response whose `…object.children.child` node holds the
given children. -/
def gponPage (cs : List JVal) : JVal :=
  JVal.obj [("soapenv:Envelope", JVal.obj [("soapenv:Body", JVal.obj
    [("rpc-reply", JVal.obj [("data", JVal.obj [("top", JVal.obj
      [("object", JVal.obj [("children", JVal.obj
        [("child", JVal.arr cs)])])])])])])])]

/-- A stub alarm entry with the given object type, a one-key object id and an
alarm type — the three pieces the continuation cursor is built from. -/
def alarmEntry (ty idv alarmTy : String) : JVal :=
  JVal.obj [("object", JVal.obj [("type", JVal.s ty),
    ("id", JVal.obj [("ont", JVal.s idv)])]), ("alarm-type", JVal.s alarmTy)]

/-- A two-page alarm feed: one alarm on the first page, one on the second. -/
def c1Pages : List (List JVal) :=
  [[alarmEntry "Ont" "1" "low-rx-opt-pwr-ne"], [alarmEntry "Ont" "2" "high-temp"]]

/-- The two-page ONT-listing script of the spec's worked example: two objects
on page 1 with `hasMore`, one object on page 2 without. -/
def c3Script : List (JVal × Bool) :=
  [(gponPage [ontChild "1", ontChild "2"], true), (gponPage [ontChild "3"], false)]

/-- A parsed reply whose `rpc-reply` mapping holds the `ok` acknowledgement
element (an empty element parses to null). -/
def okResp : JVal :=
  JVal.obj [("soapenv:Envelope", JVal.obj [("soapenv:Body", JVal.obj
    [("rpc-reply", JVal.obj [("ok", JVal.null)])])])]

/- ## Helper lemmas -/

/-- The Python comparison `value == "lit"` is true exactly when the lookup
produced the string literal. -/
theorem isLitStr_eq_true_iff (v : Option JVal) (lit : String) :
    isLitStr v lit = true ↔ v = some (JVal.s lit) := by
  constructor
  · intro h
    match v, h with
    | some (JVal.s u), h =>
      have hu : u = lit := by
        have := of_decide_eq_true (by simpa [isLitStr] using h)
        exact this
      rw [hu]
  · intro h
    subst h
    simp [isLitStr]

/-- Extracting the alarm page of an `alarmResp` stub yields exactly its
page. -/
theorem alarmResp_extract (page : List JVal) :
    jgetD (alarmResp page) alarmPath (JVal.arr []) = JVal.arr page := rfl

/- ## Claim C1 -/

/-- The request trace has one entry per page of the script. -/
theorem afterTrace_length (pages : List (List JVal)) :
    ∀ a, (afterTrace a pages).length = pages.length := by
  induction pages with
  | nil => intro a; rfl
  | cons p rest ih =>
    intro a
    cases rest with
    | nil => rfl
    | cons q rest' =>
      show (a :: afterTrace _ (q :: rest')).length = (p :: q :: rest').length
      simp [ih]

/-- The first entry of a non-empty request trace is its starting insertion. -/
theorem afterTrace_head (a : String) (p : List JVal) (rest : List (List JVal)) :
    (afterTrace a (p :: rest)).head? = some a := by
  cases rest <;> rfl

/-- A cursor-ready page has a last alarm from which a cursor can be built. -/
theorem cursorReady_spec (p : List JVal) (hp : cursorReady p = true) :
    ∃ lastv ins, p.getLast? = some lastv ∧ buildCursor lastv = some ins := by
  unfold cursorReady at hp
  cases hl : p.getLast? with
  | none => rw [hl] at hp; simp at hp
  | some lv =>
    rw [hl] at hp
    simp only [Option.some_bind] at hp
    cases hb : buildCursor lv with
    | none => rw [hb] at hp; simp at hp
    | some i => exact ⟨lv, i, rfl, hb⟩

/-- The recursion of `get_node_alarms` against a scripted feed of pages
(`hasMore` on all but the last): it returns the concatenation of all pages in
delivery order and issues the requests recorded by `afterTrace`, provided
every non-final page can seed its continuation cursor. -/
theorem getNodeAlarmsAux_script (pages : List (List JVal)) :
    ∀ a, pages ≠ [] → (∀ p ∈ pages.dropLast, cursorReady p = true) →
      getNodeAlarmsAux (mkScript pages) a = Except.ok (pages.flatten, afterTrace a pages) := by
  induction pages with
  | nil => intro a h _; exact absurd rfl h
  | cons p rest ih =>
    intro a _ hready
    cases rest with
    | nil =>
      show getNodeAlarmsAux [(alarmResp p, false)] a = _
      simp [getNodeAlarmsAux, alarmResp_extract, asAlarmList, afterTrace]
    | cons q rest' =>
      have hp : cursorReady p = true := by
        apply hready
        rw [List.dropLast_cons₂]
        exact List.mem_cons_self p _
      obtain ⟨lastv, ins, hlast, hins⟩ := cursorReady_spec p hp
      have hready' : ∀ r ∈ (q :: rest').dropLast, cursorReady r = true := by
        intro r hr
        apply hready
        rw [List.dropLast_cons₂]
        exact List.mem_cons_of_mem p hr
      have hrec := ih ins (by simp) hready'
      show getNodeAlarmsAux ((alarmResp p, true) :: mkScript (q :: rest')) a = _
      simp only [getNodeAlarmsAux, alarmResp_extract, asAlarmList, hlast, hins, hrec,
        if_true, List.flatten_cons, afterTrace, Option.some_bind, Option.getD_some]

/-- Each continuation after the first request is derived from the last alarm
of the page received just before it. -/
theorem afterTrace_cursor (pages : List (List JVal)) :
    ∀ a i, (∀ p ∈ pages.dropLast, cursorReady p = true) → i + 1 < pages.length →
      (afterTrace a pages).get? (i + 1)
        = ((pages.get? i).bind List.getLast?).bind buildCursor := by
  induction pages with
  | nil => intro a i _ h; simp at h
  | cons p rest ih =>
    intro a i hready hlt
    cases rest with
    | nil => simp at hlt
    | cons q rest' =>
      have hp : cursorReady p = true := by
        apply hready
        rw [List.dropLast_cons₂]
        exact List.mem_cons_self p _
      obtain ⟨lastv, ins, hlast, hins⟩ := cursorReady_spec p hp
      have hready' : ∀ r ∈ (q :: rest').dropLast, cursorReady r = true := by
        intro r hr
        apply hready
        rw [List.dropLast_cons₂]
        exact List.mem_cons_of_mem p hr
      have hun : afterTrace a (p :: q :: rest')
          = a :: afterTrace ((p.getLast?.bind buildCursor).getD "") (q :: rest') := rfl
      have hc : (p.getLast?.bind buildCursor).getD "" = ins := by
        rw [hlast]
        simp [hins]
      cases i with
      | zero =>
        have hrhs : (((p :: q :: rest').get? 0).bind List.getLast?).bind buildCursor
            = some ins := by
          simp [hlast, hins]
        rw [hrhs, hun, hc, List.get?_cons_succ]
        cases rest' <;> rfl
      | succ n =>
        rw [hun, hc, List.get?_cons_succ, List.get?_cons_succ]
        refine ih _ n hready' ?_
        simp only [List.length_cons] at hlt ⊢
        omega

/-- C1: against any transport stub that delivers pages with `hasMore` for the
first N responses and no `hasMore` on response N+1 (each non-final page able
to seed a cursor, as the claim's follow-up derivation presupposes),
`get_node_alarms` returns exactly the concatenation of all N+1 pages' alarms
in delivery order, issues exactly N+1 requests, starts from the empty
`<action-args/>` insertion, and derives each follow-up request's continuation
from the last alarm of the previously received page. -/
theorem c1_alarm_pagination (pages : List (List JVal))
    (hne : pages ≠ [])
    (hready : ∀ p ∈ pages.dropLast, cursorReady p = true) :
    getNodeAlarms (mkScript pages)
        = Except.ok (pages.flatten, afterTrace initialActionArgs pages)
    ∧ (afterTrace initialActionArgs pages).length = pages.length
    ∧ (afterTrace initialActionArgs pages).head? = some initialActionArgs
    ∧ ∀ i, i + 1 < pages.length →
        (afterTrace initialActionArgs pages).get? (i + 1)
          = ((pages.get? i).bind List.getLast?).bind buildCursor := by
  refine ⟨getNodeAlarmsAux_script pages initialActionArgs hne hready,
    afterTrace_length pages initialActionArgs, ?_,
    fun i hi => afterTrace_cursor pages initialActionArgs i hready hi⟩
  cases pages with
  | nil => exact absurd rfl hne
  | cons p rest => exact afterTrace_head initialActionArgs p rest

/-- C1 witness: the concrete two-page alarm feed `c1Pages`. -/
theorem c1_alarm_pagination_witness :
    c1Pages ≠ []
    ∧ (∀ p ∈ c1Pages.dropLast, cursorReady p = true)
    ∧ getNodeAlarms (mkScript c1Pages)
        = Except.ok (c1Pages.flatten, afterTrace initialActionArgs c1Pages)
    ∧ (afterTrace initialActionArgs c1Pages).length = c1Pages.length
    ∧ (afterTrace initialActionArgs c1Pages).get? 1
        = ((c1Pages.get? 0).bind List.getLast?).bind buildCursor :=
  ⟨by simp [c1Pages], by decide,
   (c1_alarm_pagination c1Pages (by simp [c1Pages]) (by decide)).1,
   (c1_alarm_pagination c1Pages (by simp [c1Pages]) (by decide)).2.1,
   (c1_alarm_pagination c1Pages (by simp [c1Pages]) (by decide)).2.2.2 0 (by decide)⟩

/- ## Claim C2 -/

/-- C2: the claim says `get_node_alarms` terminates safely, without error and
without further requests, when a page carries zero alarm items while the
response still asserts `hasMore`. The code has no such guard: on that input it
evaluates `alarms[-1]` on an empty list, so the call raises `IndexError`
instead of returning the accumulated items. This theorem evaluates the
embedded recursion at the failing input — a single response that asserts
`hasMore` (contains the `<more/>` marker) but holds no alarm element. -/
theorem c2_empty_page_raises :
    getNodeAlarms [(JVal.obj [], true)] = Except.error PyErr.indexError := rfl

/- ## Claim C4 -/

/-- C4 counterexample: a login answered with result code `"0"` and session id
`"31415"` followed by a logout answered with result code `"0"` completes
without error, but the stored session id is still `"31415"` — `logout` never
assigns `self.session_id`, so the client does not return to the session-absent
state. -/
theorem c4_counterexample :
    (logoutCore (loginCore (ClientState.mk none)
        (authReply "0" (some (JVal.s "31415")))).fst (authReply "0" none)).snd
      = Except.ok ()
    ∧ ((logoutCore (loginCore (ClientState.mk none)
        (authReply "0" (some (JVal.s "31415")))).fst (authReply "0" none)).fst.sessionId
      = some (JVal.s "31415"))
    ∧ ((logoutCore (loginCore (ClientState.mk none)
        (authReply "0" (some (JVal.s "31415")))).fst (authReply "0" none)).fst.sessionId).isSome
      = true :=
  ⟨rfl, rfl, rfl⟩

/-- C4 (amended): a logout whose auth-reply carries result code `"0"` returns
without error and leaves the client state — including the stored session id —
unchanged; the session id is not cleared. -/
theorem c4_logout_keeps_session (st : ClientState) (resp : JVal)
    (hne : isEmptyDict resp = false)
    (hcode : isLitStr (jget resp authReplyCode) "0" = true) :
    logoutCore st resp = (st, Except.ok ()) := by
  unfold logoutCore
  rw [hne, hcode]
  rfl

/-- C4 (amended) witness: the concrete logout reply of the counterexample,
run from the state a successful login produced. -/
theorem c4_logout_keeps_session_witness :
    isEmptyDict (authReply "0" none) = false
    ∧ isLitStr (jget (authReply "0" none) authReplyCode) "0" = true
    ∧ logoutCore (ClientState.mk (some (JVal.s "31415"))) (authReply "0" none)
        = (ClientState.mk (some (JVal.s "31415")), Except.ok ()) :=
  ⟨rfl, rfl, c4_logout_keeps_session _ _ rfl rfl⟩

/- ## Claim C5 -/

/-- C5: a login whose parse result is a non-empty mapping (a well-formed
reply) but whose auth-reply either lacks a session id or carries a result code
other than the string `"0"` raises `CmsAuthenticationFailure` and leaves the
client state — in particular the stored session id — unchanged. -/
theorem c5_login_failure (st : ClientState) (resp : JVal)
    (hne : isEmptyDict resp = false)
    (h : (jget resp authReplySid).isNone = true
        ∨ isLitStr (jget resp authReplyCode) "0" = false) :
    loginCore st resp = (st, Except.error CmsError.authenticationFailure) := by
  unfold loginCore
  rw [hne]
  simp only [Bool.false_eq_true, if_false]
  rcases h with h | h
  · rw [Option.isNone_iff_eq_none] at h
    rw [h]
  · cases hsid : jget resp authReplySid with
    | none => rfl
    | some sid => rw [h]; rfl

/-- C5 witness: a well-formed auth-reply with result code `"1"` and a session
id present still fails authentication and does not store the session id. -/
theorem c5_login_failure_witness :
    isEmptyDict (authReply "1" (some (JVal.s "99"))) = false
    ∧ isLitStr (jget (authReply "1" (some (JVal.s "99"))) authReplyCode) "0" = false
    ∧ loginCore (ClientState.mk none) (authReply "1" (some (JVal.s "99")))
        = (ClientState.mk none, Except.error CmsError.authenticationFailure) :=
  ⟨rfl, rfl, c5_login_failure _ _ rfl (Or.inr rfl)⟩

/- ## Claim C3 -/

/-- C3 counterexample: against the spec's two-page stub (2 objects with
`hasMore=true`, then 1 object with `hasMore=false`), `list_onts_on_gpon`
returns a 2-element list after exactly 1 outbound request — not the claimed
3-element list after 2 requests, because the method discards the `hasMore`
flag and never issues a continuation request. -/
theorem c3_counterexample :
    (listOntsOnGpon c3Script).map (fun r => (r.fst.onts.length, r.snd))
        = Except.ok ((2 : Nat), (1 : Nat))
    ∧ ((2 : Nat), (1 : Nat)) ≠ ((3 : Nat), (2 : Nat)) :=
  ⟨rfl, by decide⟩

/-- C3 (amended): `list_onts_on_gpon` issues exactly one outbound request and
returns only the first scripted page's extraction; the `hasMore` flag and any
further scripted pages are ignored, so on the spec's two-page stub it yields
the first page's 2 ONT ids. -/
theorem c3_single_request (resp : JVal) (m m' : Bool)
    (rest rest' : List (JVal × Bool)) :
    listOntsOnGpon ((resp, m) :: rest) = Except.ok (listOntsCore resp, 1)
    ∧ listOntsOnGpon ((resp, m) :: rest) = listOntsOnGpon ((resp, m') :: rest')
    ∧ (listOntsOnGpon c3Script).map (fun r => (r.fst.onts, r.snd))
        = Except.ok ([JVal.s "1", JVal.s "2"], (1 : Nat)) :=
  ⟨rfl, rfl, rfl⟩

/- ## Claim C6 -/

/-- C6 counterexample: a connection-refused transport failure during `get_ont`
does not surface as `CmsCommunicationFailure` — `__post` swallows it into the
empty parse result and `get_ont` returns an `OntGeneral` record built from
`{}` (every extracted field absent), raising nothing. -/
theorem c6_counterexample :
    getOnt "node" "1" (Except.error TransportFailure.connectionError)
        = Except.ok (Except.ok (mkOntGeneral "node" "1" (JVal.obj [])))
    ∧ (mkOntGeneral "node" "1" (JVal.obj [])).admin_state = none
    ∧ (mkOntGeneral "node" "1" (JVal.obj [])).serial_nr = none :=
  ⟨rfl, rfl, rfl⟩

/-- C6 (amended): the transport failures `__post` catches (malformed URL,
connection refused, interrupted parse) are swallowed into the empty parse
result `{}`; only `login` and `logout` translate that empty result into
`CmsCommunicationFailure`, while `get_ont` returns a record with every
extracted field absent and the action/edit operations return `False`. -/
theorem c6_swallowed_transport_failures (e : TransportFailure) (st : ClientState)
    (nodeId ontId : String) (h : caughtByPost e = true) :
    getOnt nodeId ontId (Except.error e)
        = Except.ok (Except.ok (mkOntGeneral nodeId ontId (JVal.obj [])))
    ∧ loginStep st (Except.error e)
        = Except.ok (st, Except.error CmsError.communicationFailure)
    ∧ logoutStep st (Except.error e)
        = Except.ok (st, Except.error CmsError.communicationFailure)
    ∧ resetOnt (Except.error e) = Except.ok false := by
  have hp : post (Except.error e) = Except.ok (JVal.obj [], false) := by
    simp [post, h]
  unfold getOnt loginStep logoutStep resetOnt
  rw [hp]
  exact ⟨rfl, rfl, rfl, rfl⟩

/-- C6 (amended) witness: the connection-refused failure, from a fresh client
state. -/
theorem c6_swallowed_transport_failures_witness :
    caughtByPost TransportFailure.connectionError = true
    ∧ (getOnt "node" "1" (Except.error TransportFailure.connectionError)
        = Except.ok (Except.ok (mkOntGeneral "node" "1" (JVal.obj [])))
      ∧ loginStep (ClientState.mk none) (Except.error TransportFailure.connectionError)
          = Except.ok (ClientState.mk none, Except.error CmsError.communicationFailure)
      ∧ logoutStep (ClientState.mk none) (Except.error TransportFailure.connectionError)
          = Except.ok (ClientState.mk none, Except.error CmsError.communicationFailure)
      ∧ resetOnt (Except.error TransportFailure.connectionError) = Except.ok false) :=
  ⟨rfl, c6_swallowed_transport_failures TransportFailure.connectionError
    (ClientState.mk none) "node" "1" rfl⟩

/- ## Claim C7 -/

/-- C7 counterexample: the namespace URI is not determined by the operation
kind being Auth or not — the non-auth `get_ont_status` envelope carries the
very URI the auth envelopes use, while the equally non-auth `get_ont` envelope
carries a different one, so no single URI covers all non-auth envelopes. -/
theorem c7_counterexample :
    getOntStatusEnvelopeNs = loginEnvelopeNs
    ∧ getOntEnvelopeNs ≠ getOntStatusEnvelopeNs
    ∧ getOntStatusEnvelopeNs ∈ nonAuthEnvelopeNsList
    ∧ getOntEnvelopeNs ∈ nonAuthEnvelopeNsList
    ∧ ¬ ∃ u, u ≠ loginEnvelopeNs ∧ ∀ x ∈ nonAuthEnvelopeNsList, x = u := by
  refine ⟨rfl, by decide, by decide, by decide, ?_⟩
  rintro ⟨u, hu, hall⟩
  have h1 : getOntEnvelopeNs = u := hall _ (by decide)
  have h2 : getOntStatusEnvelopeNs = u := hall _ (by decide)
  rw [← h2] at h1
  exact absurd h1 (by decide)

/-- C7 (amended): the two auth envelopes share one fixed URI; every non-auth
envelope carries one of exactly two fixed URIs — either the distinct
`www.w3.org/2003/05/soap-envelope` or the same URI as the auth envelopes —
hardcoded per operation rather than chosen by operation kind. -/
theorem c7_two_namespace_uris :
    loginEnvelopeNs = logoutEnvelopeNs
    ∧ getOntEnvelopeNs ≠ loginEnvelopeNs
    ∧ (nonAuthEnvelopeNsList.all
        (fun u => u == getOntEnvelopeNs || u == loginEnvelopeNs)) = true
    ∧ getOntEnvelopeNs ∈ nonAuthEnvelopeNsList
    ∧ loginEnvelopeNs ∈ nonAuthEnvelopeNsList := by
  refine ⟨rfl, by decide, by decide, by decide, by decide⟩

/- ## Claim C8 -/

/-- C8 counterexample: the `ppte_power_control` field of `OntPort` is coerced
with `== "false"` (lines 675-679), so a raw leaf holding exactly the literal
`"true"` coerces to `false` and a raw leaf holding `"false"` coerces to
`true` — refuting "true iff the raw leaf value is the exact literal string
`true`" for that boolean-valued leaf. -/
theorem c8_counterexample :
    jget (ontPortResp [("ppte-power-control", JVal.s "true")])
        (rpcObjPath ++ ["ppte-power-control"]) = some (JVal.s "true")
    ∧ (mkOntPort "node" "1" (ontPortResp [("ppte-power-control", JVal.s "true")])).ppte_power_control
        = false
    ∧ (mkOntPort "node" "1" (ontPortResp [("ppte-power-control", JVal.s "false")])).ppte_power_control
        = true :=
  ⟨rfl, rfl, rfl⟩

/-- C8 (amended): every boolean coercion is a literal string comparison on the
raw leaf the call reads: the three `== "true"` fields of `OntPort` and
`battery_present` of `OntGeneral` are true exactly when the raw value is the
literal `"true"`, while `ppte_power_control` is true exactly when the raw
value is the literal `"false"`. -/
theorem c8_boolean_coercions (nodeId ontId : String) (resp : JVal) :
    ((mkOntPort nodeId ontId resp).disable_on_battery = true
      ↔ jget resp (rpcObjPath ++ ["disable-on-batt"]) = some (JVal.s "true"))
    ∧ ((mkOntPort nodeId ontId resp).link_oam_events = true
      ↔ jget resp (rpcObjPath ++ ["link-oam-events"]) = some (JVal.s "true"))
    ∧ ((mkOntPort nodeId ontId resp).accept_link_oam_loopbacks = true
      ↔ jget resp (rpcObjPath ++ ["accept-link-oam-loopbacks"]) = some (JVal.s "true"))
    ∧ ((mkOntPort nodeId ontId resp).ppte_power_control = true
      ↔ jget resp (rpcObjPath ++ ["ppte-power-control"]) = some (JVal.s "false"))
    ∧ ((mkOntGeneral nodeId ontId resp).battery_present = true
      ↔ jget resp (rpcObjPath ++ ["serno"]) = some (JVal.s "true")) :=
  ⟨isLitStr_eq_true_iff _ _, isLitStr_eq_true_iff _ _, isLitStr_eq_true_iff _ _,
   isLitStr_eq_true_iff _ _, isLitStr_eq_true_iff _ _⟩

/- ## Claim C9 -/

/-- C9 counterexample: an `OntPort` built from a response tree that lacks the
`disable-on-batt` leaf has `disable_on_battery = false` — the boolean default
sentinel — rather than an absent value, because the `== "true"` coercion maps
a missing leaf to `False`. -/
theorem c9_counterexample :
    ((jget (ontPortResp []) (rpcObjPath ++ ["disable-on-batt"])).isNone = true)
    ∧ (mkOntPort "node" "1" (ontPortResp [])).disable_on_battery = false
    ∧ (mkOntPort "node" "1" (ontPortResp [])).ppte_power_control = false :=
  ⟨rfl, rfl, rfl⟩

/-- C9 (amended): building an `OntPort` from a response tree in which every
known leaf path is absent gives `none` for every plain-extracted field, but
the four boolean-coerced fields collapse to the sentinel `false` instead of an
absent value. -/
theorem c9_absent_fields (nodeId ontId : String) (resp : JVal)
    (h : ∀ p ∈ ontPortLeafPaths, (jget resp p).isNone = true) :
    (mkOntPort nodeId ontId resp).slot = none
    ∧ (mkOntPort nodeId ontId resp).port_number = none
    ∧ (mkOntPort nodeId ontId resp).admin = none
    ∧ (mkOntPort nodeId ontId resp).subscriber_id = none
    ∧ (mkOntPort nodeId ontId resp).description = none
    ∧ (mkOntPort nodeId ontId resp).speed = none
    ∧ (mkOntPort nodeId ontId resp).duplex = none
    ∧ (mkOntPort nodeId ontId resp).intf = none
    ∧ (mkOntPort nodeId ontId resp).dhcp_limit_override = none
    ∧ (mkOntPort nodeId ontId resp).downstream_bandwidth_profile = none
    ∧ (mkOntPort nodeId ontId resp).force_dot1x = none
    ∧ (mkOntPort nodeId ontId resp).role = none
    ∧ (mkOntPort nodeId ontId resp).policing = none
    ∧ (mkOntPort nodeId ontId resp).poe_power_priority = none
    ∧ (mkOntPort nodeId ontId resp).poe_class_control = none
    ∧ (mkOntPort nodeId ontId resp).voice_policy_profile = none
    ∧ (mkOntPort nodeId ontId resp).ont_port_color = none
    ∧ (mkOntPort nodeId ontId resp).disable_on_battery = false
    ∧ (mkOntPort nodeId ontId resp).link_oam_events = false
    ∧ (mkOntPort nodeId ontId resp).accept_link_oam_loopbacks = false
    ∧ (mkOntPort nodeId ontId resp).ppte_power_control = false := by
  have g : ∀ p ∈ ontPortLeafPaths, jget resp p = none := fun p hp =>
    Option.isNone_iff_eq_none.mp (h p hp)
  refine ⟨g _ (by decide), g _ (by decide), g _ (by decide), g _ (by decide),
    g _ (by decide), g _ (by decide), g _ (by decide), g _ (by decide),
    g _ (by decide), g _ (by decide), g _ (by decide), g _ (by decide),
    g _ (by decide), g _ (by decide), g _ (by decide), g _ (by decide),
    g _ (by decide), ?_, ?_, ?_, ?_⟩
  · show isLitStr (jget resp (rpcObjPath ++ ["disable-on-batt"])) "true" = false
    rw [g _ (by decide)]
    rfl
  · show isLitStr (jget resp (rpcObjPath ++ ["link-oam-events"])) "true" = false
    rw [g _ (by decide)]
    rfl
  · show isLitStr (jget resp (rpcObjPath ++ ["accept-link-oam-loopbacks"])) "true" = false
    rw [g _ (by decide)]
    rfl
  · show isLitStr (jget resp (rpcObjPath ++ ["ppte-power-control"])) "false" = false
    rw [g _ (by decide)]
    rfl

/-- C9 (amended) witness: the response tree whose object node is empty. -/
theorem c9_absent_fields_witness :
    (∀ p ∈ ontPortLeafPaths, (jget (ontPortResp []) p).isNone = true)
    ∧ (mkOntPort "node" "1" (ontPortResp [])).slot = none
    ∧ (mkOntPort "node" "1" (ontPortResp [])).disable_on_battery = false :=
  ⟨by decide,
   (c9_absent_fields "node" "1" (ontPortResp []) (by decide)).1,
   (c9_absent_fields "node" "1" (ontPortResp []) (by decide)).2.2.2.2.2.2.2.2.2.2.2.2.2.2.2.2.2.2.1⟩

/- ## Claim C10 -/

/-- C10: whenever `__post` completes (a parsed response, or a caught transport
failure swallowed into the empty parse result), every action and edit-config
operation returns, without raising, exactly the boolean that is true iff the
parsed response holds an `rpc-reply` mapping containing the key `"ok"`; the
empty parse result of a transport failure yields `False`. -/
theorem c10_edit_ops (tr : Except TransportFailure (JVal × Bool)) (resp : JVal)
    (m : Bool) (h : post tr = Except.ok (resp, m)) :
    (editResult resp = true ↔ okReply resp)
    ∧ resetOnt tr = Except.ok (editResult resp)
    ∧ resetOntPerformance tr = Except.ok (editResult resp)
    ∧ quarantineOnt tr = Except.ok (editResult resp)
    ∧ releaseOnt tr = Except.ok (editResult resp)
    ∧ enableOnt tr = Except.ok (editResult resp)
    ∧ disableOnt tr = Except.ok (editResult resp)
    ∧ enableOntPort tr = Except.ok (editResult resp)
    ∧ disableOntPort tr = Except.ok (editResult resp)
    ∧ enableXdslPort tr = Except.ok (editResult resp)
    ∧ disableXdslPort tr = Except.ok (editResult resp)
    ∧ enableXdslBondingGroup tr = Except.ok (editResult resp)
    ∧ disableXdslBondingGroup tr = Except.ok (editResult resp)
    ∧ editResult (JVal.obj []) = false := by
  have hiff : editResult resp = true ↔ okReply resp := by
    unfold editResult okReply
    cases hr : jget resp rpcReplyPath with
    | none => simp
    | some v =>
      cases v with
      | null => simp
      | s u => simp
      | arr xs => simp
      | obj kvs =>
        constructor
        · intro hb
          exact ⟨kvs, rfl, hb⟩
        · rintro ⟨kvs', hk, hb⟩
          have hkv : JVal.obj kvs = JVal.obj kvs' := by
            injection hk
          injection hkv with h2
          rw [h2]
          exact hb
  unfold resetOnt resetOntPerformance quarantineOnt releaseOnt enableOnt
    disableOnt enableOntPort disableOntPort enableXdslPort disableXdslPort
    enableXdslBondingGroup disableXdslBondingGroup
  rw [h]
  exact ⟨hiff, rfl, rfl, rfl, rfl, rfl, rfl, rfl, rfl, rfl, rfl, rfl, rfl, rfl⟩

/-- C10 witness: a reply carrying the `ok` acknowledgement makes `reset_ont`
return `True`. -/
theorem c10_edit_ops_witness :
    post (Except.ok (okResp, false)) = Except.ok (okResp, false)
    ∧ resetOnt (Except.ok (okResp, false)) = Except.ok (editResult okResp)
    ∧ editResult okResp = true :=
  ⟨rfl, (c10_edit_ops (Except.ok (okResp, false)) okResp false rfl).2.1, rfl⟩

end NocApi
